import Mathlib

/-!
Verification of the stock-market sentiment-analysis pipeline.

The development shallowly embeds the data transformations of the pipeline:
`sentiment_finbert.py` (headline-column lookup, batching, FinBERT scoring,
score/label derivation, date serialization), `build_panel.py` (daily sentiment
aggregation, return computation, inner join), `build_correlation.py` (missing
return filtering) and `lead_lag_sentiment_return.py` (date filtering, one-step
lead/lag table).  Dataframe columns become Lean lists, missing values (NaN)
become `Option`, float arithmetic of scores becomes exact `ℚ` arithmetic, and
the real-valued softmax is modelled over `ℝ`.  Calendar dates are encoded as
natural numbers (e.g. `yyyymmdd`) wherever only their ordering and equality
matter.
-/

/-! ### sentiment_finbert.py -/

/-- The headline column candidates tried in order
(`HEADLINE_COL_CANDIDATES` in `sentiment_finbert.py`). -/
def HEADLINE_COL_CANDIDATES : List String := ["HEADLINE", "headline", "Title", "title"]

/-- Fixed batch size (`BATCH_SIZE` in `sentiment_finbert.py`). -/
def BATCH_SIZE : Nat := 16

/-- `find_headline_column`: return the first candidate present among the
dataframe's columns, otherwise raise a `KeyError` (modelled as `Except.error`). -/
def find_headline_column (cols : List String) : Except String String :=
  match HEADLINE_COL_CANDIDATES.find? (fun c => cols.contains c) with
  | some c => Except.ok c
  | none => Except.error "Could not find a headline column."

/-- `chunked`: yield successive slices `iterable[i:i+size]` for
`i = 0, size, 2*size, ...`.  (`size = 0` would raise in Python; the model
returns `[]` there and every use instantiates `size` with `BATCH_SIZE = 16`.) -/
def chunked (l : List α) (size : Nat) : List (List α) :=
  if h : l.isEmpty ∨ size = 0 then []
  else l.take size :: chunked (l.drop size) size
termination_by l.length
decreasing_by
  have h1 : l ≠ [] := by
    intro he
    exact (not_or.mp h).1 (by simp [he])
  have h2 : size ≠ 0 := (not_or.mp h).2
  have h3 : 0 < l.length := List.length_pos.mpr h1
  simp only [List.length_drop]
  omega

/-- The per-batch accumulation loop of `score_with_finbert`: each batch is
scored and the three probability columns are appended, batch after batch, to
the three output lists.  The black-box model inference (tokenize, forward
pass, softmax) is abstracted as a function `f` from a text to its three-class
probability row, exactly the shape `probs[:, idx]` is read from. -/
def score_batches (f : α → Fin 3 → ℝ) (pos_idx neg_idx neu_idx : Fin 3) :
    List (List α) → List ℝ × List ℝ × List ℝ
  | [] => ([], [], [])
  | b :: bs =>
    let rest := score_batches f pos_idx neg_idx neu_idx bs
    (b.map (fun t => f t pos_idx) ++ rest.1,
     b.map (fun t => f t neg_idx) ++ rest.2.1,
     b.map (fun t => f t neu_idx) ++ rest.2.2)

/-- `score_with_finbert`: batch the texts with `chunked(texts, BATCH_SIZE)` and
accumulate the three probability lists batch by batch, in input order. -/
def score_with_finbert (f : α → Fin 3 → ℝ) (pos_idx neg_idx neu_idx : Fin 3)
    (texts : List α) : List ℝ × List ℝ × List ℝ :=
  score_batches f pos_idx neg_idx neu_idx (chunked texts BATCH_SIZE)

/-- `torch.softmax(logits, dim=-1)` on a 3-class logit row. -/
noncomputable def softmax (z : Fin 3 → ℝ) (i : Fin 3) : ℝ :=
  Real.exp (z i) / ∑ j, Real.exp (z j)

/-- `FINBERT_SCORE = FINBERT_POS - FINBERT_NEG` (continuous score column). -/
def FINBERT_SCORE (pos neg : ℚ) : ℚ := pos - neg

/-- The label lambda of `sentiment_finbert.main`:
`"positive" if x > 0.05 else ("negative" if x < -0.05 else "neutral")`. -/
def FINBERT_LABEL (x : ℚ) : String :=
  if x > 0.05 then "positive" else if x < -0.05 then "negative" else "neutral"

/-! ### build_panel.py -/

/-- A row of the scored-news file as consumed by `build_panel.load_news`
(the columns actually used by the aggregation). -/
structure NewsRow where
  DATE : Nat
  FINBERT_SCORE : ℚ
  FINBERT_LABEL : String
deriving DecidableEq

/-- A row of the daily sentiment aggregate produced by `build_panel.load_news`. -/
structure DailyRow where
  DATE : Nat
  DAILY_SENTIMENT : ℚ
  NUM_HEADLINES : Nat
  POS_SHARE : ℚ
  NEG_SHARE : ℚ
deriving DecidableEq

/-- The group of rows sharing one `DATE` key inside `news.groupby("DATE")`. -/
def date_group (rows : List NewsRow) (d : Nat) : List NewsRow :=
  rows.filter (fun r => r.DATE == d)

/-- The distinct `DATE` keys of the groupby, in ascending order
(pandas `groupby` sorts its keys by default). -/
def group_keys (rows : List NewsRow) : List Nat :=
  ((rows.map (fun r => r.DATE)).toFinset).sort (· ≤ ·)

/-- Pandas `Series.mean()` on a rational column (sum divided by length;
only ever applied to nonempty groups). -/
def series_mean (xs : List ℚ) : ℚ := xs.sum / xs.length

/-- The share lambda `lambda x: (x == lbl).mean()`: the mean of the 0/1
indicator of the label column matching `lbl`. -/
def label_share (lbl : String) (g : List NewsRow) : ℚ :=
  series_mean (g.map (fun r => if r.FINBERT_LABEL == lbl then (1 : ℚ) else 0))

/-- `build_panel.load_news` aggregation: one output row per distinct date, with
mean score, row count, and positive/negative label shares. -/
def load_news (rows : List NewsRow) : List DailyRow :=
  (group_keys rows).map (fun d =>
    let g := date_group rows d
    { DATE := d
      DAILY_SENTIMENT := series_mean (g.map (fun r => r.FINBERT_SCORE))
      NUM_HEADLINES := g.length
      POS_SHARE := label_share "positive" g
      NEG_SHARE := label_share "negative" g })

/-- Helper of `pct_change`: returns of the non-first rows, each computed
from the running previous close. -/
def pct_aux (prev : ℚ) : List ℚ → List (Option ℚ)
  | [] => []
  | c :: rest => some (c / prev - 1) :: pct_aux c rest

/-- `df["CLOSE"].pct_change()` on the date-sorted close column: the first
entry is missing (NaN) and entry `t` is `close[t]/close[t-1] - 1`. -/
def pct_change : List ℚ → List (Option ℚ)
  | [] => []
  | c :: rest => none :: pct_aux c rest

/-- `prices.merge(news, on="DATE", how="inner")`: every price row is paired
with every sentiment row carrying the same date; unmatched rows of either
side are dropped. -/
def merge_inner (prices : List (Nat × α)) (news : List (Nat × β)) :
    List (Nat × α × β) :=
  prices.flatMap (fun p =>
    (news.filter (fun q => q.1 == p.1)).map (fun q => (p.1, p.2, q.2)))

/-! ### build_correlation.py and lead_lag_sentiment_return.py -/

/-- A panel row as consumed by the downstream analytics (the columns the
verified claims are about); missing values (NaN) are `none`. -/
structure PanelRow where
  DATE : Nat
  DAILY_SENTIMENT : Option ℚ
  RETURN : Option ℚ
deriving DecidableEq

/-- `df = df[df["RETURN"].notna()]` in `build_correlation.main`: rows with a
missing return are removed before any correlation statistic is computed. -/
def drop_missing_return (rows : List PanelRow) : List PanelRow :=
  rows.filter (fun r => r.RETURN.isSome)

/-- `df["RETURN"].shift(-1)` (the `RETURN_TOMORROW` column): entry `k` is the
return of row `k+1`; the last entry is missing. -/
def return_tomorrow (rows : List PanelRow) : List (Option ℚ) :=
  match rows with
  | [] => []
  | _ :: _ => (rows.map (fun r => r.RETURN)).tail ++ [none]

/-- The lead/lag table of `lead_lag_sentiment_return.main`:
`df[["DATE", "DAILY_SENTIMENT", "RETURN_TOMORROW"]].dropna()` — each surviving
row pairs a date's sentiment with the next row's return, and any row with a
missing sentiment or a missing next-row return is dropped. -/
def lead_lag_table (rows : List PanelRow) : List (Nat × ℚ × ℚ) :=
  (rows.zip (return_tomorrow rows)).filterMap (fun pr =>
    match pr.1.DAILY_SENTIMENT, pr.2 with
    | some s, some r => some (pr.1.DATE, s, r)
    | _, _ => none)

/-- `START_DATE = "2025-08-08"` encoded as `yyyymmdd`. -/
def START_DATE : Nat := 20250808

/-- `END_DATE = "2025-11-17"` encoded as `yyyymmdd`. -/
def END_DATE : Nat := 20251117

/-- The date-range filter and sort of the analytics scripts:
`df.loc[(DATE >= START) & (DATE <= END)].sort_values("DATE")`. -/
def date_filter_sort (rows : List PanelRow) : List PanelRow :=
  (rows.filter (fun r => START_DATE ≤ r.DATE && r.DATE ≤ END_DATE)).insertionSort
    (fun a b => a.DATE ≤ b.DATE)

/-! ### Run outcomes of the script entry points

Each `main()` is a straight-line script; its observable outcome is either a
raised exception (`error`, nothing written), a diagnosed early `return`
(`skipped`, nothing written), or completion (the data it goes on to write).
-/

/-- Outcome of one script run. -/
inductive RunOutcome (α : Type) where
  | completed : α → RunOutcome α
  | skipped : String → RunOutcome α
  | error : String → RunOutcome α
deriving DecidableEq

/-- The news CSV as read by `sentiment_finbert.main`: its column names and its
headline column (a missing cell is `none`). -/
structure NewsCSV where
  cols : List String
  headlines : List (Option String)
deriving DecidableEq

/-- The control flow of `sentiment_finbert.main` up to the point where scoring
begins: locate the headline column (raising if absent), drop rows with empty
headlines, and return early with a diagnostic if nothing is left; otherwise the
run proceeds to score exactly the retained headlines (the scoring and CSV
write that follow are the functions modelled above). -/
def sentiment_main (csv : NewsCSV) : RunOutcome (List String) :=
  match find_headline_column csv.cols with
  | Except.error e => RunOutcome.error e
  | Except.ok _ =>
    let kept := csv.headlines.filterMap id
    if kept.isEmpty then
      RunOutcome.skipped "No headlines found after dropping empty rows."
    else
      RunOutcome.completed kept

/-- `build_panel.load_news` including its column check: raises a `KeyError`
when the scored-news file has no `DATE` column, otherwise aggregates. -/
def load_news_main (cols : List String) (rows : List NewsRow) :
    Except String (List DailyRow) :=
  if cols.contains "DATE" then Except.ok (load_news rows)
  else Except.error "FinBERT file must contain DATE column."

/-- The control flow of `lead_lag_sentiment_return.main`: check the `DATE`
column (raising if absent), filter to the date range and sort, raise a
`ValueError` if no rows remain, build the lead/lag table, raise a `ValueError`
if it is empty, and otherwise complete with the table that is then written. -/
def lead_lag_main (cols : List String) (rows : List PanelRow) :
    RunOutcome (List (Nat × ℚ × ℚ)) :=
  if cols.contains "DATE" then
    let df := date_filter_sort rows
    if df.isEmpty then
      RunOutcome.error "No rows after date filtering - check START_DATE / END_DATE."
    else
      let tbl := lead_lag_table df
      if tbl.isEmpty then
        RunOutcome.error "Lead/lag dataframe is empty - check RETURN column."
      else
        RunOutcome.completed tbl
  else
    RunOutcome.error "Expected a DATE column in the panel file."

/-! ### Date serialization and re-parsing (C6)

`sentiment_finbert.add_date_from_timestamp` writes the derived `DATE` column
with `strftime("%d/%m/%Y")` (day first, zero padded).  `build_panel.load_news`
re-reads that column with `pd.to_datetime(df["DATE"], errors="coerce")`, whose
default (`dayfirst=False`) interprets a slashed numeric date month-first and
falls back to day-first only when the first field cannot be a month.  Strings
are modelled as `Char` lists so every function below reduces in the kernel. -/

/-- The decimal digit character of `n % 10`. -/
def digit_char (n : Nat) : Char := Char.ofNat (48 + n % 10)

/-- Two-digit zero-padded rendering (`%d` / `%m`). -/
def pad2 (n : Nat) : List Char := [digit_char (n / 10), digit_char n]

/-- Four-digit zero-padded rendering (`%Y`, for years below 10000). -/
def pad4 (y : Nat) : List Char :=
  [digit_char (y / 1000), digit_char (y / 100), digit_char (y / 10), digit_char y]

/-- `strftime("%d/%m/%Y")` on the calendar date `(day, month, year)`. -/
def strftime_ddmmyyyy (day month year : Nat) : List Char :=
  pad2 day ++ ['/'] ++ pad2 month ++ ['/'] ++ pad4 year

/-- Split a character string at every slash. -/
def split_slash : List Char → List (List Char)
  | [] => [[]]
  | c :: rest =>
    match split_slash rest, c == '/' with
    | groups, true => [] :: groups
    | [], false => [[c]]
    | g :: gs, false => (c :: g) :: gs

/-- Parse a nonempty all-digit string as a natural number. -/
def parse_nat (cs : List Char) : Option Nat :=
  if cs.isEmpty then none
  else
    cs.foldl (fun acc c =>
      match acc with
      | none => none
      | some v => if c.isDigit then some (v * 10 + (c.toNat - 48)) else none)
      (some 0)

/-- Resolution of an ambiguous slashed numeric date `a/b/year` by the default
(`dayfirst=False`) parser behind `pd.to_datetime`: `a` is taken as the month
when it can be one, and only otherwise is the day-first reading tried.
Returns the calendar date as `(day, month, year)`. -/
def resolve_month_first (a b year : Nat) : Option (Nat × Nat × Nat) :=
  if 1 ≤ a ∧ a ≤ 12 ∧ 1 ≤ b ∧ b ≤ 31 then some (b, a, year)
  else if 1 ≤ b ∧ b ≤ 12 ∧ 1 ≤ a ∧ a ≤ 31 then some (a, b, year)
  else none

/-- `pd.to_datetime(s, errors="coerce")` (default `dayfirst=False`) on a
slashed numeric date string; an unparseable string coerces to `NaT` (`none`). -/
def to_datetime_default (cs : List Char) : Option (Nat × Nat × Nat) :=
  match (split_slash cs).map parse_nat with
  | [some a, some b, some y] => resolve_month_first a b y
  | _ => none

/-- The round trip of C6: the scorer serializes the calendar date
`(day, month, year)` as `dd/mm/yyyy` and the panel builder re-parses the
resulting string with the pandas default parser. -/
def date_roundtrip (day month year : Nat) : Option (Nat × Nat × Nat) :=
  to_datetime_default (strftime_ddmmyyyy day month year)

/-! ### Theorems -/

/-- C1: for every headline the continuous score equals the positive minus the
negative probability and lies in [-1, 1] when both probabilities lie in
[0, 1], and the discrete label is the fixed-threshold function of the score:
"positive" above 0.05, "negative" below -0.05, otherwise "neutral", with both
boundary values resolving to "neutral". -/
theorem sentiment_score_and_label_spec (pos neg : ℚ)
    (hp0 : 0 ≤ pos) (hp1 : pos ≤ 1) (hn0 : 0 ≤ neg) (hn1 : neg ≤ 1) :
    FINBERT_SCORE pos neg = pos - neg ∧
    -1 ≤ FINBERT_SCORE pos neg ∧ FINBERT_SCORE pos neg ≤ 1 ∧
    (∀ x : ℚ, x > 0.05 → FINBERT_LABEL x = "positive") ∧
    (∀ x : ℚ, x < -0.05 → FINBERT_LABEL x = "negative") ∧
    (∀ x : ℚ, -0.05 ≤ x → x ≤ 0.05 → FINBERT_LABEL x = "neutral") ∧
    FINBERT_LABEL 0.05 = "neutral" ∧ FINBERT_LABEL (-0.05) = "neutral" := by
  refine ⟨rfl, ?_, ?_, ?_, ?_, ?_, ?_, ?_⟩
  · simp only [FINBERT_SCORE]; linarith
  · simp only [FINBERT_SCORE]; linarith
  · intro x hx
    rw [FINBERT_LABEL, if_pos hx]
  · intro x hx
    rw [FINBERT_LABEL, if_neg (by norm_num; linarith), if_pos hx]
  · intro x hx1 hx2
    rw [FINBERT_LABEL, if_neg (by norm_num; linarith), if_neg (by norm_num; linarith)]
  · norm_num [FINBERT_LABEL]
  · norm_num [FINBERT_LABEL]

/-- Witness for C1 at the probabilities pos = 3/4, neg = 1/10. -/
theorem sentiment_score_and_label_spec_witness :
    ((0:ℚ) ≤ 3/4 ∧ (3/4:ℚ) ≤ 1 ∧ (0:ℚ) ≤ 1/10 ∧ (1/10:ℚ) ≤ 1) ∧
    (FINBERT_SCORE (3/4) (1/10) = 3/4 - 1/10 ∧
     -1 ≤ FINBERT_SCORE (3/4) (1/10) ∧ FINBERT_SCORE (3/4) (1/10) ≤ 1 ∧
     (∀ x : ℚ, x > 0.05 → FINBERT_LABEL x = "positive") ∧
     (∀ x : ℚ, x < -0.05 → FINBERT_LABEL x = "negative") ∧
     (∀ x : ℚ, -0.05 ≤ x → x ≤ 0.05 → FINBERT_LABEL x = "neutral") ∧
     FINBERT_LABEL 0.05 = "neutral" ∧ FINBERT_LABEL (-0.05) = "neutral") :=
  ⟨by norm_num,
   sentiment_score_and_label_spec (3/4) (1/10) (by norm_num) (by norm_num)
     (by norm_num) (by norm_num)⟩

/-- C2: a date appears in the merged panel exactly when it appears both in the
price table and in the daily sentiment table (strict inner join on the date
key). -/
theorem panel_inner_join_membership {α β : Type} (prices : List (Nat × α))
    (news : List (Nat × β)) (d : Nat) :
    (∃ r ∈ merge_inner prices news, r.1 = d) ↔
      (∃ p ∈ prices, p.1 = d) ∧ (∃ q ∈ news, q.1 = d) := by
  simp only [merge_inner, List.mem_flatMap, List.mem_map, List.mem_filter, beq_iff_eq]
  constructor
  · rintro ⟨r, ⟨p, hp, q, ⟨hq, hqd⟩, hr⟩, hrd⟩
    subst hr
    exact ⟨⟨p, hp, hrd⟩, ⟨q, hq, by simp_all⟩⟩
  · rintro ⟨⟨p, hp, hpd⟩, ⟨q, hq, hqd⟩⟩
    exact ⟨(p.1, p.2, q.2), ⟨p, hp, q, ⟨hq, by omega⟩, rfl⟩, hpd⟩

/-- The scored-news input of the C3 example: a single date carrying headline
scores 0.2, -0.4 and 0.1, each row labelled the way the scorer labels that
score. -/
def c3_example_rows : List NewsRow :=
  [⟨20250101, 0.2, FINBERT_LABEL 0.2⟩,
   ⟨20250101, -0.4, FINBERT_LABEL (-0.4)⟩,
   ⟨20250101, 0.1, FINBERT_LABEL 0.1⟩]

/-- C3 counterexample: on the claimed example input (scores 0.2, -0.4, 0.1 on
one date) the pipeline's positive share is 2/3, not the claimed 1/3, because
a score of 0.1 exceeds the 0.05 threshold and is labelled "positive". -/
theorem daily_aggregate_example_refuted :
    (load_news c3_example_rows).map DailyRow.POS_SHARE = [2/3] ∧ (2/3 : ℚ) ≠ 1/3 := by
  have l1 : FINBERT_LABEL 0.2 = "positive" := by norm_num [FINBERT_LABEL]
  have l2 : FINBERT_LABEL (-0.4) = "negative" := by norm_num [FINBERT_LABEL]
  have l3 : FINBERT_LABEL 0.1 = "positive" := by norm_num [FINBERT_LABEL]
  have hne1 : ("negative" : String) ≠ "positive" := by decide
  constructor
  · simp [c3_example_rows, load_news, group_keys, date_group, label_share, series_mean,
      l1, l2, l3, hne1]
    norm_num
  · norm_num

/-- The sum of a 0/1 label indicator column equals the matching row count. -/
lemma indicator_sum_eq_count (lbl : String) (g : List NewsRow) :
    (g.map (fun r => if r.FINBERT_LABEL == lbl then (1 : ℚ) else 0)).sum =
      ((g.filter (fun r => r.FINBERT_LABEL == lbl)).length : ℚ) := by
  induction g with
  | nil => simp
  | cons a g ih =>
    rw [List.map_cons, List.sum_cons, List.filter_cons]
    by_cases h : a.FINBERT_LABEL == lbl
    · rw [if_pos h, if_pos h, List.length_cons, ih]
      push_cast
      ring
    · rw [if_neg h, if_neg h, ih, zero_add]

/-- The mean of a label indicator column is the proportion of matching rows. -/
lemma label_share_eq_proportion (lbl : String) (g : List NewsRow) :
    label_share lbl g =
      ((g.filter (fun r => r.FINBERT_LABEL == lbl)).length : ℚ) / (g.length : ℚ) := by
  rw [label_share, series_mean, indicator_sum_eq_count, List.length_map]

/-- C3 (amended): for every date occurring in the scored-news rows, the daily
aggregate row for that date has the arithmetic mean of the date's scores, the
date's row count, and the proportions of rows labelled "positive" and
"negative"; on the example date with scores 0.2, -0.4, 0.1 this gives mean
-1/30, count 3, positive share 2/3 (not 1/3) and negative share 1/3. -/
theorem daily_aggregate_spec (rows : List NewsRow) (d : Nat)
    (hd : d ∈ rows.map NewsRow.DATE) :
    (∃ a ∈ load_news rows, a.DATE = d ∧
      a.DAILY_SENTIMENT =
        ((date_group rows d).map NewsRow.FINBERT_SCORE).sum / ((date_group rows d).length : ℚ) ∧
      a.NUM_HEADLINES = (date_group rows d).length ∧
      a.POS_SHARE =
        (((date_group rows d).filter (fun r => r.FINBERT_LABEL == "positive")).length : ℚ) /
          ((date_group rows d).length : ℚ) ∧
      a.NEG_SHARE =
        (((date_group rows d).filter (fun r => r.FINBERT_LABEL == "negative")).length : ℚ) /
          ((date_group rows d).length : ℚ)) ∧
    load_news c3_example_rows = [⟨20250101, -1/30, 3, 2/3, 1/3⟩] := by
  constructor
  · have hmem : d ∈ group_keys rows := by
      rw [group_keys, Finset.mem_sort]
      exact List.mem_toFinset.mpr hd
    refine ⟨_, List.mem_map.mpr ⟨d, hmem, rfl⟩, rfl, ?_, rfl, ?_, ?_⟩
    · simp [series_mean]
    · exact label_share_eq_proportion "positive" (date_group rows d)
    · exact label_share_eq_proportion "negative" (date_group rows d)
  · have l1 : FINBERT_LABEL 0.2 = "positive" := by norm_num [FINBERT_LABEL]
    have l2 : FINBERT_LABEL (-0.4) = "negative" := by norm_num [FINBERT_LABEL]
    have l3 : FINBERT_LABEL 0.1 = "positive" := by norm_num [FINBERT_LABEL]
    have hne1 : ("negative" : String) ≠ "positive" := by decide
    have hne2 : ("positive" : String) ≠ "negative" := by decide
    simp [c3_example_rows, load_news, group_keys, date_group, label_share, series_mean,
      l1, l2, l3, hne1, hne2]
    norm_num

/-- `pct_aux` preserves the column length. -/
lemma pct_aux_length (prev : ℚ) (l : List ℚ) : (pct_aux prev l).length = l.length := by
  induction l generalizing prev with
  | nil => rfl
  | cons c rest ih => simp [pct_aux, ih]

/-- `pct_change` preserves the column length. -/
lemma pct_change_length (l : List ℚ) : (pct_change l).length = l.length := by
  cases l with
  | nil => rfl
  | cons c rest => simp [pct_change, pct_aux_length]

/-- Beyond position 0, `pct_aux` does not depend on the seed close. -/
lemma pct_aux_getElem_succ (p : ℚ) (l : List ℚ) (t : Nat) :
    (pct_aux p l)[t+1]? = (pct_change l)[t+1]? := by
  cases l with
  | nil => rfl
  | cons c r => simp [pct_aux, pct_change]

/-- The return at each position after the first is the close ratio minus one. -/
lemma pct_change_getElem_succ :
    ∀ (closes : List ℚ) (t : Nat) (prev cur : ℚ), closes[t]? = some prev →
      closes[t+1]? = some cur →
      (pct_change closes)[t+1]? = some (some (cur / prev - 1)) := by
  intro closes t
  induction t generalizing closes with
  | zero =>
    intro prev cur h1 h2
    match closes with
    | [] => simp at h1
    | [a] => simp at h2
    | a :: b :: r =>
      simp only [List.getElem?_cons_zero, Option.some_inj] at h1
      simp only [List.getElem?_cons_succ, List.getElem?_cons_zero, Option.some_inj] at h2
      subst h1
      subst h2
      simp [pct_change, pct_aux]
  | succ t ih =>
    intro prev cur h1 h2
    match closes with
    | [] => simp at h1
    | a :: r =>
      have h1' : r[t]? = some prev := by simpa using h1
      have h2' : r[t+1]? = some cur := by simpa using h2
      calc (pct_change (a :: r))[t+1+1]? = (pct_aux a r)[t+1]? := by
            simp [pct_change]
        _ = (pct_change r)[t+1]? := pct_aux_getElem_succ a r t
        _ = some (some (cur / prev - 1)) := ih r prev cur h1' h2'

/-- C4: on a date-sorted close column the return column has the same length,
its first entry is missing, every later entry `t+1` is
`close[t+1]/close[t] - 1`, the closes 100, 105, 103 yield returns NaN, 1/20,
-2/105, and the downstream correlation input keeps a panel row exactly when
its return is present. -/
theorem daily_return_spec (closes : List ℚ) (t : Nat) (prev cur : ℚ)
    (h1 : closes[t]? = some prev) (h2 : closes[t+1]? = some cur) :
    (pct_change closes).length = closes.length ∧
    (pct_change closes)[0]? = some none ∧
    (pct_change closes)[t+1]? = some (some (cur / prev - 1)) ∧
    pct_change [100, 105, 103] = [none, some (1/20), some (-(2/105))] ∧
    (∀ rows : List PanelRow, ∀ r : PanelRow,
      r ∈ drop_missing_return rows ↔ r ∈ rows ∧ r.RETURN.isSome) := by
  refine ⟨pct_change_length closes, ?_, pct_change_getElem_succ closes t prev cur h1 h2, ?_, ?_⟩
  · match closes with
    | [] => simp at h1
    | a :: r => simp [pct_change]
  · simp [pct_change, pct_aux]
    norm_num
  · intro rows r
    simp [drop_missing_return, List.mem_filter]

/-- Witness for C4 on the close column 100, 105, 103 at position t = 1. -/
theorem daily_return_spec_witness :
    (([100, 105, 103] : List ℚ)[1]? = some 105 ∧ ([100, 105, 103] : List ℚ)[2]? = some 103) ∧
    ((pct_change [100, 105, 103]).length = ([100, 105, 103] : List ℚ).length ∧
     (pct_change [100, 105, 103])[0]? = some none ∧
     (pct_change [100, 105, 103])[2]? = some (some ((103 : ℚ) / 105 - 1)) ∧
     pct_change [100, 105, 103] = [none, some (1/20), some (-(2/105))] ∧
     (∀ rows : List PanelRow, ∀ r : PanelRow,
       r ∈ drop_missing_return rows ↔ r ∈ rows ∧ r.RETURN.isSome)) :=
  ⟨⟨by rfl, by rfl⟩,
   daily_return_spec [100, 105, 103] 1 105 103 (by rfl) (by rfl)⟩

/-- On a panel whose sentiments are all present and whose returns are present
from the second row on, the lead/lag construction pairs each row with the
next row's return and drops exactly the (unmatched) last row. -/
lemma lead_lag_table_eq (rows : List PanelRow)
    (hs : ∀ r ∈ rows, r.DAILY_SENTIMENT.isSome)
    (hr : ∀ (k : Nat) (hk : k < rows.length), 1 ≤ k → rows[k].RETURN.isSome) :
    lead_lag_table rows =
      (rows.zip rows.tail).map (fun pr =>
        (pr.1.DATE, pr.1.DAILY_SENTIMENT.getD 0, pr.2.RETURN.getD 0)) := by
  induction rows with
  | nil => simp [lead_lag_table, return_tomorrow]
  | cons a rest ih =>
    match rest with
    | [] => simp [lead_lag_table, return_tomorrow]
    | b :: rest2 =>
      have hsa : a.DAILY_SENTIMENT.isSome := hs a (List.mem_cons_self a _)
      have hrb : b.RETURN.isSome := by
        have := hr 1 (by simp) (by omega)
        simpa using this
      obtain ⟨s, hs_eq⟩ := Option.isSome_iff_exists.mp hsa
      obtain ⟨rb, hrb_eq⟩ := Option.isSome_iff_exists.mp hrb
      have hs' : ∀ r ∈ b :: rest2, r.DAILY_SENTIMENT.isSome :=
        fun r hm => hs r (List.mem_cons_of_mem a hm)
      have hr' : ∀ (k : Nat) (hk : k < (b :: rest2).length), 1 ≤ k →
          (b :: rest2)[k].RETURN.isSome := by
        intro k hk h1
        have := hr (k + 1) (by simpa using Nat.succ_lt_succ hk) (by omega)
        simpa using this
      have key : lead_lag_table (a :: b :: rest2) =
          (a.DATE, s, rb) :: lead_lag_table (b :: rest2) := by
        simp [lead_lag_table, return_tomorrow, hs_eq, hrb_eq]
      rw [key, ih hs' hr']
      simp [hs_eq, hrb_eq]

/-- C5: for a date-filtered panel with dates D1..Dn in increasing order (all
sentiments present, returns present after the first row), the lead/lag table
pairs the sentiment of row k with the return of row k+1 for k = 1..n-1, and
only the last row — the one with no next-day return — is dropped. -/
theorem lead_lag_spec (rows : List PanelRow)
    (hs : ∀ r ∈ rows, r.DAILY_SENTIMENT.isSome)
    (hr : ∀ (k : Nat) (hk : k < rows.length), 1 ≤ k → rows[k].RETURN.isSome) :
    lead_lag_table rows =
      (rows.zip rows.tail).map (fun pr =>
        (pr.1.DATE, pr.1.DAILY_SENTIMENT.getD 0, pr.2.RETURN.getD 0)) ∧
    (lead_lag_table rows).length = rows.length - 1 := by
  have h := lead_lag_table_eq rows hs hr
  refine ⟨h, ?_⟩
  rw [h]
  simp [List.length_zip, List.length_tail]

/-- The four-date panel of the spec's lead/lag example: sentiments
0.1, 0.2, 0.3, 0.4 and returns 0.01, -0.02, 0.03, 0.04. -/
def c5_example_panel : List PanelRow :=
  [⟨20250808, some (1/10), some (1/100)⟩,
   ⟨20250809, some (1/5), some (-(1/50))⟩,
   ⟨20250810, some (3/10), some (3/100)⟩,
   ⟨20250811, some (2/5), some (1/25)⟩]

/-- Witness for C5 on the four-date example panel. -/
theorem lead_lag_spec_witness :
    ((∀ r ∈ c5_example_panel, r.DAILY_SENTIMENT.isSome) ∧
     (∀ (k : Nat) (hk : k < c5_example_panel.length), 1 ≤ k →
        c5_example_panel[k].RETURN.isSome)) ∧
    (lead_lag_table c5_example_panel =
      (c5_example_panel.zip c5_example_panel.tail).map (fun pr =>
        (pr.1.DATE, pr.1.DAILY_SENTIMENT.getD 0, pr.2.RETURN.getD 0)) ∧
     (lead_lag_table c5_example_panel).length = c5_example_panel.length - 1) :=
  ⟨⟨by decide, by decide⟩, lead_lag_spec c5_example_panel (by decide) (by decide)⟩

/-- C6: the date round trip is NOT the identity — the scorer serializes
3 April 2025 as "03/04/2025", which the panel builder's default parse reads
month-first as 4 March 2025.  (The two components silently disagree on the
date format, so the claim fails on the code; the evaluation below exhibits
the failing input.) -/
theorem date_roundtrip_not_identity :
    date_roundtrip 3 4 2025 = some (4, 3, 2025) ∧
    date_roundtrip 3 4 2025 ≠ some (3, 4, 2025) := by decide

/-- C7 counterexample: a panel that is empty after the date filter makes
`lead_lag_sentiment_return.main` raise a `ValueError` — the run terminates
with an exception instead of the claimed non-fatal early return. -/
theorem lead_lag_empty_filter_raises :
    lead_lag_main ["DATE", "DAILY_SENTIMENT", "RETURN"] [] =
      RunOutcome.error "No rows after date filtering - check START_DATE / END_DATE." := by
  decide

/-- C7 (amended): an input that is empty after filtering is handled
differently per component — the sentiment scorer returns early with a
diagnostic and no exception, while the lead/lag script raises a fatal
`ValueError` on an empty date-filtered panel. -/
theorem empty_after_filter_behavior (csv : NewsCSV) (cols : List String)
    (rows : List PanelRow)
    (h1 : ∃ c, find_headline_column csv.cols = Except.ok c)
    (h2 : csv.headlines.filterMap id = [])
    (h3 : cols.contains "DATE" = true)
    (h4 : date_filter_sort rows = []) :
    sentiment_main csv = RunOutcome.skipped "No headlines found after dropping empty rows." ∧
    lead_lag_main cols rows =
      RunOutcome.error "No rows after date filtering - check START_DATE / END_DATE." := by
  constructor
  · obtain ⟨c, hc⟩ := h1
    simp [sentiment_main, hc, h2]
  · have h3m : ("DATE" : String) ∈ cols := by simpa using h3
    simp [lead_lag_main, h3m, h4]

/-- Witness for C7 (amended): a news file with a headline column whose rows
are all empty, and an empty panel. -/
theorem empty_after_filter_behavior_witness :
    ((∃ c, find_headline_column (NewsCSV.mk ["HEADLINE"] [none]).cols = Except.ok c) ∧
     (NewsCSV.mk ["HEADLINE"] [none]).headlines.filterMap id = [] ∧
     (["DATE"] : List String).contains "DATE" = true ∧
     date_filter_sort [] = []) ∧
    (sentiment_main (NewsCSV.mk ["HEADLINE"] [none]) =
       RunOutcome.skipped "No headlines found after dropping empty rows." ∧
     lead_lag_main ["DATE"] [] =
       RunOutcome.error "No rows after date filtering - check START_DATE / END_DATE.") :=
  ⟨⟨⟨"HEADLINE", rfl⟩, rfl, rfl, rfl⟩,
   empty_after_filter_behavior (NewsCSV.mk ["HEADLINE"] [none]) ["DATE"] []
     ⟨"HEADLINE", rfl⟩ rfl rfl rfl⟩

/-- C8: the headline-column lookup raises exactly when none of the accepted
candidate names is a column; in that case the scorer's run ends in the error
outcome (no output is produced); and the panel builder's news loader raises
exactly when the `DATE` column is absent. -/
theorem missing_column_error_spec (cols : List String) (csv : NewsCSV)
    (rows : List NewsRow) (hcsv : csv.cols = cols) :
    ((∃ e, find_headline_column cols = Except.error e) ↔
      ∀ c ∈ HEADLINE_COL_CANDIDATES, c ∉ cols) ∧
    ((∀ c ∈ HEADLINE_COL_CANDIDATES, c ∉ cols) →
      (∃ e, sentiment_main csv = RunOutcome.error e) ∧
      ∀ out, sentiment_main csv ≠ RunOutcome.completed out) ∧
    ((∃ e, load_news_main cols rows = Except.error e) ↔ ("DATE" : String) ∉ cols) := by
  have hmain : ∀ e, find_headline_column cols = Except.error e →
      sentiment_main csv = RunOutcome.error e := by
    intro e he
    simp [sentiment_main, hcsv, he]
  refine ⟨?_, ?_, ?_⟩
  · rw [find_headline_column]
    cases hfind : HEADLINE_COL_CANDIDATES.find? (fun c => cols.contains c) with
    | none =>
      simp only [List.find?_eq_none] at hfind
      simp only []
      constructor
      · intro _ c hc
        simpa using hfind c hc
      · intro _
        exact ⟨"Could not find a headline column.", rfl⟩
    | some c =>
      have hmem := List.mem_of_find?_eq_some hfind
      have hp : cols.contains c = true := List.find?_some hfind
      simp only []
      constructor
      · rintro ⟨e, he⟩
        cases he
      · intro hall
        exact absurd (by simpa using hp) (hall c hmem)
  · intro hall
    have herr : find_headline_column cols = Except.error "Could not find a headline column." := by
      rw [find_headline_column]
      have : HEADLINE_COL_CANDIDATES.find? (fun c => cols.contains c) = none := by
        rw [List.find?_eq_none]
        intro c hc
        simpa using hall c hc
      rw [this]
    refine ⟨⟨_, hmain _ herr⟩, ?_⟩
    intro out
    rw [hmain _ herr]
    simp
  · by_cases hd : ("DATE" : String) ∈ cols
    · simp [load_news_main, hd]
    · simp [load_news_main, hd]

/-- Witness for C8 on a news file whose only column is "X". -/
theorem missing_column_error_spec_witness :
    ((NewsCSV.mk ["X"] []).cols = ["X"]) ∧
    (((∃ e, find_headline_column ["X"] = Except.error e) ↔
        ∀ c ∈ HEADLINE_COL_CANDIDATES, c ∉ ["X"]) ∧
     ((∀ c ∈ HEADLINE_COL_CANDIDATES, c ∉ ["X"]) →
       (∃ e, sentiment_main (NewsCSV.mk ["X"] []) = RunOutcome.error e) ∧
       ∀ out, sentiment_main (NewsCSV.mk ["X"] []) ≠ RunOutcome.completed out) ∧
     ((∃ e, load_news_main ["X"] [] = Except.error e) ↔ ("DATE" : String) ∉ ["X"])) :=
  ⟨rfl, missing_column_error_spec ["X"] (NewsCSV.mk ["X"] []) [] rfl⟩

/-- Concatenating the chunks restores the input (fuel-indexed induction). -/
lemma chunked_flatten_aux {α : Type} (size : Nat) (hs : size ≠ 0) :
    ∀ (n : Nat) (l : List α), l.length ≤ n → (chunked l size).flatten = l := by
  intro n
  induction n with
  | zero =>
    intro l hl
    have hnil : l = [] := List.eq_nil_of_length_eq_zero (Nat.le_zero.mp hl)
    subst hnil
    simp [chunked]
  | succ n ih =>
    intro l hl
    rw [chunked]
    split
    · rename_i h
      rcases h with h | h
      · simp [List.isEmpty_iff.mp h]
      · exact absurd h hs
    · rename_i h
      have hne : l ≠ [] := by
        intro he
        exact h (Or.inl (by simp [he]))
      have hpos : 0 < l.length := List.length_pos.mpr hne
      have hlen : (l.drop size).length ≤ n := by
        simp only [List.length_drop]
        omega
      rw [List.flatten_cons, ih (l.drop size) hlen, List.take_append_drop]

/-- Concatenating the chunks of a positive chunk size restores the input. -/
lemma chunked_flatten {α : Type} (l : List α) (size : Nat) (hs : size ≠ 0) :
    (chunked l size).flatten = l :=
  chunked_flatten_aux size hs l.length l le_rfl

/-- The per-batch accumulation equals the column maps over the concatenation
of the batches. -/
lemma score_batches_eq {α : Type} (f : α → Fin 3 → ℝ) (i0 i1 i2 : Fin 3)
    (bs : List (List α)) :
    score_batches f i0 i1 i2 bs =
      (bs.flatten.map (fun t => f t i0), bs.flatten.map (fun t => f t i1),
       bs.flatten.map (fun t => f t i2)) := by
  induction bs with
  | nil => rfl
  | cons b rest ih => simp [score_batches, ih]

/-- The batched scorer computes exactly the three per-text probability columns
in input order. -/
lemma score_with_finbert_eq_map {α : Type} (f : α → Fin 3 → ℝ) (i0 i1 i2 : Fin 3)
    (texts : List α) :
    score_with_finbert f i0 i1 i2 texts =
      (texts.map (fun t => f t i0), texts.map (fun t => f t i1),
       texts.map (fun t => f t i2)) := by
  rw [score_with_finbert, score_batches_eq,
    chunked_flatten texts BATCH_SIZE (by norm_num [BATCH_SIZE])]

/-- C9: the scorer's fixed-size batching preserves input order — concatenating
the chunks restores the original text sequence, and the three concatenated
probability outputs have the k-th input's probabilities at position k (they
are exactly the per-text columns of the input sequence). -/
theorem batching_preserves_order {α : Type} (f : α → Fin 3 → ℝ) (i0 i1 i2 : Fin 3)
    (texts : List α) :
    (chunked texts BATCH_SIZE).flatten = texts ∧
    score_with_finbert f i0 i1 i2 texts =
      (texts.map (fun t => f t i0), texts.map (fun t => f t i1),
       texts.map (fun t => f t i2)) :=
  ⟨chunked_flatten texts BATCH_SIZE (by norm_num [BATCH_SIZE]),
   score_with_finbert_eq_map f i0 i1 i2 texts⟩

/-- The softmax of a 3-class logit row sums to 1 over all classes. -/
lemma softmax_sum_univ (z : Fin 3 → ℝ) : ∑ i, softmax z i = 1 := by
  simp only [softmax]
  rw [← Finset.sum_div]
  exact div_self (ne_of_gt (Finset.sum_pos (fun i _ => Real.exp_pos (z i))
    ⟨0, Finset.mem_univ 0⟩))

/-- Reading the softmax at the three distinct class indices sums to 1. -/
lemma softmax_triple_sum (z : Fin 3 → ℝ) (i0 i1 i2 : Fin 3)
    (h01 : i0 ≠ i1) (h02 : i0 ≠ i2) (h12 : i1 ≠ i2) :
    softmax z i0 + softmax z i1 + softmax z i2 = 1 := by
  have hcard : ({i0, i1, i2} : Finset (Fin 3)).card = 3 := by
    rw [Finset.card_insert_of_not_mem (by simp [h01, h02]),
      Finset.card_insert_of_not_mem (by simp [h12]), Finset.card_singleton]
  have huniv : ({i0, i1, i2} : Finset (Fin 3)) = Finset.univ :=
    Finset.eq_univ_of_card _ (by simp [hcard])
  calc softmax z i0 + softmax z i1 + softmax z i2
      = ∑ i ∈ ({i0, i1, i2} : Finset (Fin 3)), softmax z i := by
        rw [Finset.sum_insert (by simp [h01, h02]),
          Finset.sum_insert (by simp [h12]), Finset.sum_singleton]
        ring
    _ = ∑ i, softmax z i := by rw [huniv]
    _ = 1 := softmax_sum_univ z

/-- C10: for every input sequence the scorer returns three equal-length
probability sequences (softmax of the per-text logits read at the three
distinct class indices), and for each position the three probabilities sum to
exactly 1, hence within the 1e-4 tolerance. -/
theorem probabilities_sum_to_one {α : Type} (logits : α → Fin 3 → ℝ) (i0 i1 i2 : Fin 3)
    (h01 : i0 ≠ i1) (h02 : i0 ≠ i2) (h12 : i1 ≠ i2) (texts : List α) :
    (score_with_finbert (fun t => softmax (logits t)) i0 i1 i2 texts).1.length = texts.length ∧
    (score_with_finbert (fun t => softmax (logits t)) i0 i1 i2 texts).2.1.length = texts.length ∧
    (score_with_finbert (fun t => softmax (logits t)) i0 i1 i2 texts).2.2.length = texts.length ∧
    (∀ (k : Nat) (a b c : ℝ),
      (score_with_finbert (fun t => softmax (logits t)) i0 i1 i2 texts).1[k]? = some a →
      (score_with_finbert (fun t => softmax (logits t)) i0 i1 i2 texts).2.1[k]? = some b →
      (score_with_finbert (fun t => softmax (logits t)) i0 i1 i2 texts).2.2[k]? = some c →
      a + b + c = 1 ∧ |a + b + c - 1| ≤ 1e-4) := by
  rw [score_with_finbert_eq_map]
  refine ⟨by simp, by simp, by simp, ?_⟩
  intro k a b c ha hb hc
  rw [List.getElem?_map] at ha hb hc
  cases ht : texts[k]? with
  | none =>
    rw [ht] at ha
    simp at ha
  | some t =>
    rw [ht] at ha hb hc
    have ha' : softmax (logits t) i0 = a := by simpa using ha
    have hb' : softmax (logits t) i1 = b := by simpa using hb
    have hc' : softmax (logits t) i2 = c := by simpa using hc
    have hsum := softmax_triple_sum (logits t) i0 i1 i2 h01 h02 h12
    rw [ha', hb', hc'] at hsum
    refine ⟨hsum, ?_⟩
    rw [hsum]
    norm_num

/-- Witness for C10 with the class indices 0, 1, 2 and a one-text input under
the all-zero logit function. -/
theorem probabilities_sum_to_one_witness :
    ((0 : Fin 3) ≠ 1 ∧ (0 : Fin 3) ≠ 2 ∧ (1 : Fin 3) ≠ 2) ∧
    ((score_with_finbert (fun t => softmax ((fun _ : Nat => fun _ : Fin 3 => (0:ℝ)) t))
        0 1 2 [0]).1.length = ([0] : List Nat).length ∧
     (score_with_finbert (fun t => softmax ((fun _ : Nat => fun _ : Fin 3 => (0:ℝ)) t))
        0 1 2 [0]).2.1.length = ([0] : List Nat).length ∧
     (score_with_finbert (fun t => softmax ((fun _ : Nat => fun _ : Fin 3 => (0:ℝ)) t))
        0 1 2 [0]).2.2.length = ([0] : List Nat).length ∧
     (∀ (k : Nat) (a b c : ℝ),
       (score_with_finbert (fun t => softmax ((fun _ : Nat => fun _ : Fin 3 => (0:ℝ)) t))
          0 1 2 [0]).1[k]? = some a →
       (score_with_finbert (fun t => softmax ((fun _ : Nat => fun _ : Fin 3 => (0:ℝ)) t))
          0 1 2 [0]).2.1[k]? = some b →
       (score_with_finbert (fun t => softmax ((fun _ : Nat => fun _ : Fin 3 => (0:ℝ)) t))
          0 1 2 [0]).2.2[k]? = some c →
       a + b + c = 1 ∧ |a + b + c - 1| ≤ 1e-4)) :=
  ⟨⟨by decide, by decide, by decide⟩,
   probabilities_sum_to_one (fun _ : Nat => fun _ : Fin 3 => (0:ℝ)) 0 1 2
     (by decide) (by decide) (by decide) [0]⟩

/-- Witness for C3 (amended) at the example date of `c3_example_rows`. -/
theorem daily_aggregate_spec_witness :
    ((20250101 : Nat) ∈ c3_example_rows.map NewsRow.DATE) ∧
    ((∃ a ∈ load_news c3_example_rows, a.DATE = 20250101 ∧
      a.DAILY_SENTIMENT =
        ((date_group c3_example_rows 20250101).map NewsRow.FINBERT_SCORE).sum /
          ((date_group c3_example_rows 20250101).length : ℚ) ∧
      a.NUM_HEADLINES = (date_group c3_example_rows 20250101).length ∧
      a.POS_SHARE =
        (((date_group c3_example_rows 20250101).filter
            (fun r => r.FINBERT_LABEL == "positive")).length : ℚ) /
          ((date_group c3_example_rows 20250101).length : ℚ) ∧
      a.NEG_SHARE =
        (((date_group c3_example_rows 20250101).filter
            (fun r => r.FINBERT_LABEL == "negative")).length : ℚ) /
          ((date_group c3_example_rows 20250101).length : ℚ)) ∧
    load_news c3_example_rows = [⟨20250101, -1/30, 3, 2/3, 1/3⟩]) :=
  ⟨by simp [c3_example_rows],
   daily_aggregate_spec c3_example_rows 20250101 (by simp [c3_example_rows])⟩
